import Mathlib

/-!
Verification of the AEAD key-template factory
(src/python/tink/aead/_aead_key_templates.py).

Shallow embedding: the proto key-format records become Lean structures; the
proto serializer (whose implementation lives outside the excerpt) is modelled
from the spec as the canonical field-tagged binary record format — base-128
varints, tag bytes, length-delimited nested records — with scalar fields
omitted at their zero default and sub-records always emitted once touched,
exactly as the source's field assignments force. Bytes are `List Nat`.
-/

namespace AeadKeyTemplates

/-- Modelled from the spec: base-128 varint encoding of a natural number
(least-significant group first), the integer encoding of the field-tagged
binary record format the spec requires. `varintAux` carries explicit fuel so
the function is structurally recursive (the fuel `n` always suffices, since
each step at least halves the value). -/
def varintAux : Nat → Nat → List Nat
  | 0, n => [n]
  | fuel + 1, n => if n < 128 then [n] else (n % 128 + 128) :: varintAux fuel (n / 128)

/-- Base-128 varint encoding of `n`. -/
def varint (n : Nat) : List Nat := varintAux n n

/-- Modelled from the spec: decode one varint from the front of a byte list,
returning the value and the remaining bytes. -/
def varintDecode : List Nat → Option (Nat × List Nat)
  | [] => none
  | b :: rest =>
    if b < 128 then some (b, rest)
    else
      match varintDecode rest with
      | some (v, r) => some (v * 128 + (b - 128), r)
      | none => none

/-- Modelled from the spec: the tag byte of a proto field — field number
shifted left three bits plus the wire type (0 = varint, 2 = length-delimited). -/
def tagByte (fieldNum wireType : Nat) : Nat := fieldNum * 8 + wireType

/-- Modelled from the spec: a scalar varint field — omitted entirely at its
zero default, otherwise a tag byte followed by the varint of the value. -/
def encVarintField (fieldNum v : Nat) : List Nat :=
  if v = 0 then [] else tagByte fieldNum 0 :: varint v

/-- Modelled from the spec: a length-delimited field holding a nested record —
tag byte, varint of the payload length, then the payload. -/
def encLenField (fieldNum : Nat) (payload : List Nat) : List Nat :=
  tagByte fieldNum 2 :: (varint payload.length ++ payload)

/-- Read one scalar varint field with the given field number from the front of
a record, returning the zero default (and the input unchanged) when the field
is absent. -/
def readVarintField (fieldNum : Nat) : List Nat → Nat × List Nat
  | [] => (0, [])
  | t :: rest =>
    if t = tagByte fieldNum 0 then
      match varintDecode rest with
      | some (v, r) => (v, r)
      | none => (0, t :: rest)
    else (0, t :: rest)

/-- Read one length-delimited field with the given field number from the front
of a record, returning an empty payload (and the input unchanged) when the
field is absent. -/
def readLenField (fieldNum : Nat) : List Nat → List Nat × List Nat
  | [] => ([], [])
  | t :: rest =>
    if t = tagByte fieldNum 2 then
      match varintDecode rest with
      | some (len, r) => (r.take len, r.drop len)
      | none => ([], t :: rest)
    else ([], t :: rest)

/-- Modelled from the spec: the fixed enumerated set of hash algorithms (the
repository's common proto enum `HashType`, outside the excerpt), with its wire
codes. -/
def UNKNOWN_HASH : Nat := 0

/-- Wire code of SHA1 in the hash-algorithm enum. -/
def SHA1 : Nat := 1

/-- Wire code of SHA384 in the hash-algorithm enum. -/
def SHA384 : Nat := 2

/-- Wire code of SHA256 in the hash-algorithm enum. -/
def SHA256 : Nat := 3

/-- Wire code of SHA512 in the hash-algorithm enum. -/
def SHA512 : Nat := 4

/-- Wire code of SHA224 in the hash-algorithm enum. -/
def SHA224 : Nat := 5

/-- Modelled from the spec: membership of a wire value in the declared
hash-algorithm enum domain. -/
def hashTypeDomain (h : Nat) : Bool := decide (h ≤ 5)

/-- Modelled from the spec: the only error this core can raise — an enum value
outside its declared domain handed to the serializer. -/
inductive EncodingError where
  | enumOutOfDomain (value : Nat)
deriving DecidableEq, Repr

/-- The tagging-mode enum of the key template (`OutputPrefixType` in the
repository's tink proto, outside the excerpt): this core only ever emits
`TINK`. -/
inductive OutputPrefixType where
  | TINK
  | LEGACY
  | RAW
  | CRUNCHY
deriving DecidableEq, Repr

/-- `AesEaxParams`: the EAX parameter sub-record, field `iv_size = 1`. -/
structure AesEaxParams where
  iv_size : Nat
deriving DecidableEq, Repr

/-- `AesEaxKeyFormat`: fields `params = 1`, `key_size = 2`. -/
structure AesEaxKeyFormat where
  params : AesEaxParams
  key_size : Nat
deriving DecidableEq, Repr

/-- Modelled from the spec: canonical serialization of `AesEaxKeyFormat`. The
`params` sub-record is always present (the source assigns through it), the
scalar is omitted at zero. -/
def AesEaxKeyFormat.SerializeToString (f : AesEaxKeyFormat) : List Nat :=
  encLenField 1 (encVarintField 1 f.params.iv_size) ++ encVarintField 2 f.key_size

/-- `AesGcmKeyFormat`: field `key_size = 2`. -/
structure AesGcmKeyFormat where
  key_size : Nat
deriving DecidableEq, Repr

/-- Modelled from the spec: canonical serialization of `AesGcmKeyFormat`. -/
def AesGcmKeyFormat.SerializeToString (f : AesGcmKeyFormat) : List Nat :=
  encVarintField 2 f.key_size

/-- `AesGcmSivKeyFormat`: field `key_size = 2` (the version field keeps its
zero default and is never emitted). -/
structure AesGcmSivKeyFormat where
  key_size : Nat
deriving DecidableEq, Repr

/-- Modelled from the spec: canonical serialization of `AesGcmSivKeyFormat`. -/
def AesGcmSivKeyFormat.SerializeToString (f : AesGcmSivKeyFormat) : List Nat :=
  encVarintField 2 f.key_size

/-- `AesCtrParams`: field `iv_size = 1`. -/
structure AesCtrParams where
  iv_size : Nat
deriving DecidableEq, Repr

/-- `AesCtrKeyFormat`: fields `params = 1`, `key_size = 2`. -/
structure AesCtrKeyFormat where
  params : AesCtrParams
  key_size : Nat
deriving DecidableEq, Repr

/-- Modelled from the spec: canonical serialization of `AesCtrKeyFormat`. -/
def AesCtrKeyFormat.SerializeToString (f : AesCtrKeyFormat) : List Nat :=
  encLenField 1 (encVarintField 1 f.params.iv_size) ++ encVarintField 2 f.key_size

/-- `HmacParams`: fields `hash = 1` (enum), `tag_size = 2`. -/
structure HmacParams where
  hash : Nat
  tag_size : Nat
deriving DecidableEq, Repr

/-- Modelled from the spec: serializing `HmacParams` fails with an
`EncodingError` when the hash value lies outside the declared enum domain;
otherwise the enum travels as a plain varint field. -/
def HmacParams.SerializeToString (p : HmacParams) : Except EncodingError (List Nat) :=
  if hashTypeDomain p.hash then
    .ok (encVarintField 1 p.hash ++ encVarintField 2 p.tag_size)
  else .error (.enumOutOfDomain p.hash)

/-- `HmacKeyFormat`: fields `params = 1`, `key_size = 2`. -/
structure HmacKeyFormat where
  params : HmacParams
  key_size : Nat
deriving DecidableEq, Repr

/-- Modelled from the spec: canonical serialization of `HmacKeyFormat`; an
error from the nested params record propagates unchanged. -/
def HmacKeyFormat.SerializeToString (f : HmacKeyFormat) : Except EncodingError (List Nat) :=
  match f.params.SerializeToString with
  | .ok p => .ok (encLenField 1 p ++ encVarintField 2 f.key_size)
  | .error e => .error e

/-- `AesCtrHmacAeadKeyFormat`: fields `aes_ctr_key_format = 1`,
`hmac_key_format = 2`. -/
structure AesCtrHmacAeadKeyFormat where
  aes_ctr_key_format : AesCtrKeyFormat
  hmac_key_format : HmacKeyFormat
deriving DecidableEq, Repr

/-- Modelled from the spec: canonical serialization of
`AesCtrHmacAeadKeyFormat`; an error from the nested HMAC record propagates
unchanged. -/
def AesCtrHmacAeadKeyFormat.SerializeToString (f : AesCtrHmacAeadKeyFormat) :
    Except EncodingError (List Nat) :=
  match f.hmac_key_format.SerializeToString with
  | .ok h => .ok (encLenField 1 f.aes_ctr_key_format.SerializeToString ++ encLenField 2 h)
  | .error e => .error e

/-- `KeyTemplate` (the repository's tink proto, outside the excerpt): type
identifier, serialized parameter bytes, tagging mode. -/
structure KeyTemplate where
  type_url : String
  value : List Nat
  output_prefix_type : OutputPrefixType
deriving DecidableEq, Repr

/-- The fixed AES-EAX type identifier. -/
def _AES_EAX_KEY_TYPE_URL : String := "type.googleapis.com/google.crypto.tink.AesEaxKey"

/-- The fixed AES-GCM type identifier. -/
def _AES_GCM_KEY_TYPE_URL : String := "type.googleapis.com/google.crypto.tink.AesGcmKey"

/-- The fixed AES-GCM-SIV type identifier. -/
def _AES_GCM_SIV_KEY_TYPE_URL : String :=
  "type.googleapis.com/google.crypto.tink.AesGcmSivKey"

/-- The fixed AES-CTR-HMAC-AEAD type identifier. -/
def _AES_CTR_HMAC_AEAD_KEY_TYPE_URL : String :=
  "type.googleapis.com/google.crypto.tink.AesCtrHmacAeadKey"

/-- The fixed XChaCha20-Poly1305 type identifier. -/
def _XCHACHA20_POLY1305_KEY_TYPE_URL : String :=
  "type.googleapis.com/google.crypto.tink.XChaCha20Poly1305Key"

/-- The five fixed type identifiers of section 6 of the spec. -/
def typeUrls : List String :=
  [_AES_EAX_KEY_TYPE_URL, _AES_GCM_KEY_TYPE_URL, _AES_GCM_SIV_KEY_TYPE_URL,
   _AES_CTR_HMAC_AEAD_KEY_TYPE_URL, _XCHACHA20_POLY1305_KEY_TYPE_URL]

/-- Creates an AES EAX KeyTemplate, and fills in its values. -/
def create_aes_eax_key_template (key_size iv_size : Nat) : KeyTemplate :=
  let key_format : AesEaxKeyFormat := ⟨⟨iv_size⟩, key_size⟩
  ⟨_AES_EAX_KEY_TYPE_URL, key_format.SerializeToString, .TINK⟩

/-- Creates an AES GCM KeyTemplate, and fills in its values. -/
def create_aes_gcm_key_template (key_size : Nat) : KeyTemplate :=
  let key_format : AesGcmKeyFormat := ⟨key_size⟩
  ⟨_AES_GCM_KEY_TYPE_URL, key_format.SerializeToString, .TINK⟩

/-- Creates an AES GCM SIV KeyTemplate, and fills in its values. -/
def create_aes_gcm_siv_key_template (key_size : Nat) : KeyTemplate :=
  let key_format : AesGcmSivKeyFormat := ⟨key_size⟩
  ⟨_AES_GCM_SIV_KEY_TYPE_URL, key_format.SerializeToString, .TINK⟩

/-- Creates an AES CTR HMAC AEAD KeyTemplate, and fills in its values; a
serialization error (hash enum outside its domain) propagates unchanged and
no template is produced. -/
def create_aes_ctr_hmac_aead_key_template
    (aes_key_size iv_size hmac_key_size tag_size hash_type : Nat) :
    Except EncodingError KeyTemplate :=
  let key_format : AesCtrHmacAeadKeyFormat :=
    ⟨⟨⟨iv_size⟩, aes_key_size⟩, ⟨⟨hash_type, tag_size⟩, hmac_key_size⟩⟩
  match key_format.SerializeToString with
  | .ok v => .ok ⟨_AES_CTR_HMAC_AEAD_KEY_TYPE_URL, v, .TINK⟩
  | .error e => .error e

/-- Catalog entry: 128-bit AES-EAX. -/
def AES128_EAX : KeyTemplate := create_aes_eax_key_template 16 16

/-- Catalog entry: 256-bit AES-EAX. -/
def AES256_EAX : KeyTemplate := create_aes_eax_key_template 32 16

/-- Catalog entry: 128-bit AES-GCM. -/
def AES128_GCM : KeyTemplate := create_aes_gcm_key_template 16

/-- Catalog entry: 256-bit AES-GCM. -/
def AES256_GCM : KeyTemplate := create_aes_gcm_key_template 32

/-- Catalog entry: 128-bit AES-GCM-SIV. -/
def AES128_GCM_SIV : KeyTemplate := create_aes_gcm_siv_key_template 16

/-- Catalog entry: 256-bit AES-GCM-SIV. -/
def AES256_GCM_SIV : KeyTemplate := create_aes_gcm_siv_key_template 32

/-- Catalog entry: 128-bit AES-CTR-HMAC-SHA256 (the module-level constant is
the successful result of this call; with SHA256 in the enum domain the call
cannot fail). -/
def AES128_CTR_HMAC_SHA256 : Except EncodingError KeyTemplate :=
  create_aes_ctr_hmac_aead_key_template 16 16 32 16 SHA256

/-- Catalog entry: 256-bit AES-CTR-HMAC-SHA256. -/
def AES256_CTR_HMAC_SHA256 : Except EncodingError KeyTemplate :=
  create_aes_ctr_hmac_aead_key_template 32 16 32 32 SHA256

/-- Catalog entry: XChaCha20-Poly1305, built directly with no parameter
record; the value field keeps its empty default. -/
def XCHACHA20_POLY1305 : KeyTemplate :=
  ⟨_XCHACHA20_POLY1305_KEY_TYPE_URL, [], .TINK⟩

/-- Parse an `AesEaxKeyFormat` back out of its canonical serialization. -/
def AesEaxKeyFormat.ParseFromString (b : List Nat) : AesEaxKeyFormat :=
  ⟨⟨(readVarintField 1 (readLenField 1 b).1).1⟩,
   (readVarintField 2 (readLenField 1 b).2).1⟩

/-- Parse an `AesGcmKeyFormat` back out of its canonical serialization. -/
def AesGcmKeyFormat.ParseFromString (b : List Nat) : AesGcmKeyFormat :=
  ⟨(readVarintField 2 b).1⟩

/-- Parse an `AesGcmSivKeyFormat` back out of its canonical serialization. -/
def AesGcmSivKeyFormat.ParseFromString (b : List Nat) : AesGcmSivKeyFormat :=
  ⟨(readVarintField 2 b).1⟩

/-- Parse an `AesCtrKeyFormat` back out of its canonical serialization. -/
def AesCtrKeyFormat.ParseFromString (b : List Nat) : AesCtrKeyFormat :=
  ⟨⟨(readVarintField 1 (readLenField 1 b).1).1⟩,
   (readVarintField 2 (readLenField 1 b).2).1⟩

/-- Parse an `HmacParams` back out of its canonical serialization. -/
def HmacParams.ParseFromString (b : List Nat) : HmacParams :=
  ⟨(readVarintField 1 b).1, (readVarintField 2 (readVarintField 1 b).2).1⟩

/-- Parse an `HmacKeyFormat` back out of its canonical serialization. -/
def HmacKeyFormat.ParseFromString (b : List Nat) : HmacKeyFormat :=
  ⟨HmacParams.ParseFromString (readLenField 1 b).1,
   (readVarintField 2 (readLenField 1 b).2).1⟩

/-- Parse an `AesCtrHmacAeadKeyFormat` back out of its canonical
serialization. -/
def AesCtrHmacAeadKeyFormat.ParseFromString (b : List Nat) : AesCtrHmacAeadKeyFormat :=
  ⟨AesCtrKeyFormat.ParseFromString (readLenField 1 b).1,
   HmacKeyFormat.ParseFromString (readLenField 2 (readLenField 1 b).2).1⟩

/-- The serialized parameter bytes an in-domain CTR-HMAC call produces. -/
def ctrHmacValueBytes (aes_key_size iv_size hmac_key_size tag_size hash_type : Nat) :
    List Nat :=
  encLenField 1 (encLenField 1 (encVarintField 1 iv_size) ++ encVarintField 2 aes_key_size) ++
  encLenField 2 (encLenField 1 (encVarintField 1 hash_type ++ encVarintField 2 tag_size) ++
    encVarintField 2 hmac_key_size)

/-- The fuel argument of `varintAux` is irrelevant once it dominates the
value. -/
theorem varintAux_irrel (f₁ : Nat) : ∀ f₂ n : Nat, n ≤ f₁ → n ≤ f₂ →
    varintAux f₁ n = varintAux f₂ n := by
  induction f₁ with
  | zero =>
    intro f₂ n h₁ _
    have hn : n = 0 := Nat.le_zero.mp h₁
    subst hn
    cases f₂ <;> simp [varintAux]
  | succ f ih =>
    intro f₂ n h₁ h₂
    cases f₂ with
    | zero =>
      have hn : n = 0 := Nat.le_zero.mp h₂
      subst hn
      simp [varintAux]
    | succ g =>
      simp only [varintAux]
      by_cases h : n < 128
      · simp [h]
      · have hpos : 0 < n := by omega
        have hlt : n / 128 < n := Nat.div_lt_self hpos (by omega)
        rw [if_neg h, if_neg h, ih g (n / 128) (by omega) (by omega)]

/-- The defining unfolding of `varint`. -/
theorem varint_eq (n : Nat) :
    varint n = if n < 128 then [n] else (n % 128 + 128) :: varint (n / 128) := by
  by_cases h : n < 128
  · rw [if_pos h]
    cases n with
    | zero => simp [varint, varintAux]
    | succ m => simp [varint, varintAux, h]
  · rw [if_neg h]
    have hpos : 0 < n := by omega
    obtain ⟨m, rfl⟩ : ∃ m, n = m + 1 := ⟨n - 1, by omega⟩
    show varintAux (m + 1) (m + 1) = _
    rw [varintAux, if_neg h]
    have hlt : (m + 1) / 128 < m + 1 := Nat.div_lt_self hpos (by omega)
    rw [varintAux_irrel m ((m + 1) / 128) ((m + 1) / 128) (by omega) (by omega)]
    rfl

/-- Decoding undoes encoding, leaving any following bytes untouched. -/
theorem varintDecode_varint (n : Nat) (rest : List Nat) :
    varintDecode (varint n ++ rest) = some (n, rest) := by
  induction n using Nat.strong_induction_on with
  | _ n ih =>
    rw [varint_eq]
    by_cases h : n < 128
    · simp [h, varintDecode]
    · rw [if_neg h]
      have hpos : 0 < n := by omega
      have hlt : n / 128 < n := Nat.div_lt_self hpos (by omega)
      simp only [List.cons_append, varintDecode]
      rw [if_neg (by omega)]
      simp only [List.append_eq]
      rw [ih (n / 128) hlt]
      simp only [Option.some.injEq, Prod.mk.injEq]
      exact ⟨by omega, trivial⟩

/-- Decoding undoes encoding. -/
theorem varintDecode_varint_nil (n : Nat) : varintDecode (varint n) = some (n, []) := by
  simpa using varintDecode_varint n []

/-- Reading a scalar field off an empty record yields the zero default. -/
theorem readVarintField_nil (f : Nat) : readVarintField f [] = (0, []) := rfl

/-- Reading a scalar field off a record starting with a different tag yields
the zero default and leaves the record untouched. -/
theorem readVarintField_cons_ne (f t : Nat) (rest : List Nat) (h : t ≠ tagByte f 0) :
    readVarintField f (t :: rest) = (0, t :: rest) := by
  simp [readVarintField, h]

/-- Reading a scalar field off its own tag and varint recovers the value. -/
theorem readVarintField_tag (f v : Nat) (rest : List Nat) :
    readVarintField f (tagByte f 0 :: (varint v ++ rest)) = (v, rest) := by
  simp [readVarintField, varintDecode_varint]

/-- The zero default is never emitted. -/
theorem encVarintField_zero (f : Nat) : encVarintField f 0 = [] := rfl

/-- A nonzero scalar field is its tag followed by its varint. -/
theorem encVarintField_pos (f v : Nat) (h : v ≠ 0) :
    encVarintField f v = tagByte f 0 :: varint v := by
  simp [encVarintField, h]

/-- Reading a scalar field back off its encoding recovers the value, whenever
reading the field off the following bytes alone would yield the default. -/
theorem readVarintField_enc_append (f v : Nat) (rest : List Nat)
    (h : readVarintField f rest = (0, rest)) :
    readVarintField f (encVarintField f v ++ rest) = (v, rest) := by
  by_cases hv : v = 0
  · subst hv
    simpa [encVarintField_zero] using h
  · rw [encVarintField_pos f v hv, List.cons_append, readVarintField_tag]

/-- Reading a scalar field back off exactly its encoding recovers the value. -/
theorem readVarintField_enc (f v : Nat) :
    readVarintField f (encVarintField f v) = (v, []) := by
  simpa using readVarintField_enc_append f v [] rfl

/-- A scalar field of a different number is skipped, yielding the default. -/
theorem readVarintField_skip (f g w : Nat) (h : tagByte g 0 ≠ tagByte f 0) :
    readVarintField f (encVarintField g w) = (0, encVarintField g w) := by
  by_cases hw : w = 0
  · subst hw
    rfl
  · rw [encVarintField_pos g w hw]
    exact readVarintField_cons_ne f _ _ h

/-- Reading a length-delimited field back off its encoding recovers the
payload and the following bytes. -/
theorem readLenField_enc (f : Nat) (p q : List Nat) :
    readLenField f (encLenField f p ++ q) = (p, q) := by
  have hshape : encLenField f p ++ q = tagByte f 2 :: (varint p.length ++ (p ++ q)) := by
    simp [encLenField]
  rw [hshape]
  simp only [readLenField, if_pos rfl]
  rw [varintDecode_varint]
  simp [List.take_left, List.drop_left]

/-- Reading a length-delimited field back off exactly its encoding recovers
the payload. -/
theorem readLenField_enc_nil (f : Nat) (p : List Nat) :
    readLenField f (encLenField f p) = (p, []) := by
  simpa using readLenField_enc f p []

instance : DecidableEq (Except EncodingError KeyTemplate) := fun a b =>
  match a, b with
  | .ok x, .ok y =>
    if h : x = y then .isTrue (by rw [h]) else .isFalse (fun hc => h (Except.ok.inj hc))
  | .error e, .error e' =>
    if h : e = e' then .isTrue (by rw [h]) else .isFalse (fun hc => h (Except.error.inj hc))
  | .ok _, .error _ => .isFalse (fun hc => Except.noConfusion hc)
  | .error _, .ok _ => .isFalse (fun hc => Except.noConfusion hc)

/-- Parsing undoes serialization for `AesEaxKeyFormat`. -/
theorem aesEax_parse_serialize (f : AesEaxKeyFormat) :
    AesEaxKeyFormat.ParseFromString f.SerializeToString = f := by
  obtain ⟨⟨iv⟩, k⟩ := f
  simp only [AesEaxKeyFormat.SerializeToString, AesEaxKeyFormat.ParseFromString]
  rw [readLenField_enc]
  simp [readVarintField_enc]

/-- Parsing undoes serialization for `AesGcmKeyFormat`. -/
theorem aesGcm_parse_serialize (f : AesGcmKeyFormat) :
    AesGcmKeyFormat.ParseFromString f.SerializeToString = f := by
  obtain ⟨k⟩ := f
  simp only [AesGcmKeyFormat.SerializeToString, AesGcmKeyFormat.ParseFromString]
  simp [readVarintField_enc]

/-- Parsing undoes serialization for `AesGcmSivKeyFormat`. -/
theorem aesGcmSiv_parse_serialize (f : AesGcmSivKeyFormat) :
    AesGcmSivKeyFormat.ParseFromString f.SerializeToString = f := by
  obtain ⟨k⟩ := f
  simp only [AesGcmSivKeyFormat.SerializeToString, AesGcmSivKeyFormat.ParseFromString]
  simp [readVarintField_enc]

/-- Parsing undoes serialization for `AesCtrKeyFormat`. -/
theorem aesCtr_parse_serialize (f : AesCtrKeyFormat) :
    AesCtrKeyFormat.ParseFromString f.SerializeToString = f := by
  obtain ⟨⟨iv⟩, k⟩ := f
  simp only [AesCtrKeyFormat.SerializeToString, AesCtrKeyFormat.ParseFromString]
  rw [readLenField_enc]
  simp [readVarintField_enc]

/-- Parsing undoes serialization for `HmacParams` whenever serialization
succeeds. -/
theorem hmacParams_parse_serialize (p : HmacParams) (bs : List Nat)
    (h : p.SerializeToString = .ok bs) :
    HmacParams.ParseFromString bs = p := by
  obtain ⟨hh, t⟩ := p
  simp only [HmacParams.SerializeToString] at h
  split at h
  · cases h
    simp only [HmacParams.ParseFromString]
    rw [readVarintField_enc_append 1 hh _ (readVarintField_skip 1 2 t (by decide))]
    simp [readVarintField_enc]
  · cases h

/-- Parsing undoes serialization for `HmacKeyFormat` whenever serialization
succeeds. -/
theorem hmacKeyFormat_parse_serialize (f : HmacKeyFormat) (bs : List Nat)
    (h : f.SerializeToString = .ok bs) :
    HmacKeyFormat.ParseFromString bs = f := by
  obtain ⟨p, k⟩ := f
  simp only [HmacKeyFormat.SerializeToString] at h
  cases hp : HmacParams.SerializeToString p with
  | ok pb =>
    rw [hp] at h
    cases h
    simp only [HmacKeyFormat.ParseFromString]
    rw [readLenField_enc]
    simp [readVarintField_enc, hmacParams_parse_serialize p pb hp]
  | error e =>
    rw [hp] at h
    cases h

/-- Parsing undoes serialization for `AesCtrHmacAeadKeyFormat` whenever
serialization succeeds. -/
theorem aesCtrHmacAead_parse_serialize (f : AesCtrHmacAeadKeyFormat)
    (bs : List Nat) (h : f.SerializeToString = .ok bs) :
    AesCtrHmacAeadKeyFormat.ParseFromString bs = f := by
  obtain ⟨c, hm⟩ := f
  simp only [AesCtrHmacAeadKeyFormat.SerializeToString] at h
  cases hs : HmacKeyFormat.SerializeToString hm with
  | ok hb =>
    rw [hs] at h
    cases h
    simp only [AesCtrHmacAeadKeyFormat.ParseFromString]
    rw [readLenField_enc, readLenField_enc_nil]
    simp [aesCtr_parse_serialize, hmacKeyFormat_parse_serialize hm hb hs]
  | error e =>
    rw [hs] at h
    cases h

/-- With the hash inside the enum domain, CTR-HMAC serialization succeeds and
produces exactly the field-tagged bytes of the given sizes. -/
theorem ctrFormat_serialize_ok (a i hk t h : Nat) (hdom : hashTypeDomain h = true) :
    (⟨⟨⟨i⟩, a⟩, ⟨⟨h, t⟩, hk⟩⟩ : AesCtrHmacAeadKeyFormat).SerializeToString =
      .ok (ctrHmacValueBytes a i hk t h) := by
  simp [AesCtrHmacAeadKeyFormat.SerializeToString, HmacKeyFormat.SerializeToString,
    HmacParams.SerializeToString, AesCtrKeyFormat.SerializeToString, hdom,
    ctrHmacValueBytes]

/-- With the hash outside the enum domain, CTR-HMAC serialization fails with
exactly the enum-out-of-domain error. -/
theorem ctrFormat_serialize_error (a i hk t h : Nat) (hdom : hashTypeDomain h = false) :
    (⟨⟨⟨i⟩, a⟩, ⟨⟨h, t⟩, hk⟩⟩ : AesCtrHmacAeadKeyFormat).SerializeToString =
      .error (.enumOutOfDomain h) := by
  simp [AesCtrHmacAeadKeyFormat.SerializeToString, HmacKeyFormat.SerializeToString,
    HmacParams.SerializeToString, hdom]

/-- With the hash inside the enum domain, CTR-HMAC template creation succeeds
with exactly the assembled template. -/
theorem create_ctr_ok_of_domain (a i hk t h : Nat) (hdom : hashTypeDomain h = true) :
    create_aes_ctr_hmac_aead_key_template a i hk t h =
      .ok ⟨_AES_CTR_HMAC_AEAD_KEY_TYPE_URL, ctrHmacValueBytes a i hk t h,
        OutputPrefixType.TINK⟩ := by
  simp only [create_aes_ctr_hmac_aead_key_template]
  rw [ctrFormat_serialize_ok a i hk t h hdom]

/-- Inversion of a successful CTR-HMAC template creation: the template's value
is a successful serialization of the record built from the arguments, and the
identifier and tagging mode are fixed. -/
theorem create_ctr_ok (a i hk t h : Nat) (tpl : KeyTemplate)
    (hok : create_aes_ctr_hmac_aead_key_template a i hk t h = .ok tpl) :
    (⟨⟨⟨i⟩, a⟩, ⟨⟨h, t⟩, hk⟩⟩ : AesCtrHmacAeadKeyFormat).SerializeToString =
        .ok tpl.value ∧
      tpl.type_url = _AES_CTR_HMAC_AEAD_KEY_TYPE_URL ∧
      tpl.output_prefix_type = OutputPrefixType.TINK := by
  simp only [create_aes_ctr_hmac_aead_key_template] at hok
  cases hs : (⟨⟨⟨i⟩, a⟩, ⟨⟨h, t⟩, hk⟩⟩ : AesCtrHmacAeadKeyFormat).SerializeToString with
  | ok v =>
    rw [hs] at hok
    cases hok
    exact ⟨rfl, rfl, rfl⟩
  | error e =>
    rw [hs] at hok
    cases hok

/-- With the hash outside the enum domain, CTR-HMAC template creation fails
with exactly the enum-out-of-domain error. -/
theorem create_ctr_error_of_domain (a i hk t h : Nat) (hdom : hashTypeDomain h = false) :
    create_aes_ctr_hmac_aead_key_template a i hk t h =
      .error (.enumOutOfDomain h) := by
  simp only [create_aes_ctr_hmac_aead_key_template]
  rw [ctrFormat_serialize_error a i hk t h hdom]

/-- C1: every template this module produces carries tagging mode TINK and a
type identifier that is exactly the fixed string of its variant; consequently
each of the nine catalog constants has TINK mode and one of the five
identifiers of section 6. -/
theorem claim1_templates_tink_and_fixed_identifiers :
    (∀ k i, (create_aes_eax_key_template k i).output_prefix_type = OutputPrefixType.TINK ∧
      (create_aes_eax_key_template k i).type_url = _AES_EAX_KEY_TYPE_URL) ∧
    (∀ k, (create_aes_gcm_key_template k).output_prefix_type = OutputPrefixType.TINK ∧
      (create_aes_gcm_key_template k).type_url = _AES_GCM_KEY_TYPE_URL) ∧
    (∀ k, (create_aes_gcm_siv_key_template k).output_prefix_type = OutputPrefixType.TINK ∧
      (create_aes_gcm_siv_key_template k).type_url = _AES_GCM_SIV_KEY_TYPE_URL) ∧
    (∀ a i hk t h tpl, create_aes_ctr_hmac_aead_key_template a i hk t h = .ok tpl →
      tpl.output_prefix_type = OutputPrefixType.TINK ∧
      tpl.type_url = _AES_CTR_HMAC_AEAD_KEY_TYPE_URL) ∧
    ((AES128_EAX.output_prefix_type = OutputPrefixType.TINK ∧
        AES128_EAX.type_url ∈ typeUrls) ∧
      (AES256_EAX.output_prefix_type = OutputPrefixType.TINK ∧
        AES256_EAX.type_url ∈ typeUrls) ∧
      (AES128_GCM.output_prefix_type = OutputPrefixType.TINK ∧
        AES128_GCM.type_url ∈ typeUrls) ∧
      (AES256_GCM.output_prefix_type = OutputPrefixType.TINK ∧
        AES256_GCM.type_url ∈ typeUrls) ∧
      (AES128_GCM_SIV.output_prefix_type = OutputPrefixType.TINK ∧
        AES128_GCM_SIV.type_url ∈ typeUrls) ∧
      (AES256_GCM_SIV.output_prefix_type = OutputPrefixType.TINK ∧
        AES256_GCM_SIV.type_url ∈ typeUrls) ∧
      (∀ tpl, AES128_CTR_HMAC_SHA256 = .ok tpl →
        tpl.output_prefix_type = OutputPrefixType.TINK ∧ tpl.type_url ∈ typeUrls) ∧
      (∀ tpl, AES256_CTR_HMAC_SHA256 = .ok tpl →
        tpl.output_prefix_type = OutputPrefixType.TINK ∧ tpl.type_url ∈ typeUrls) ∧
      (XCHACHA20_POLY1305.output_prefix_type = OutputPrefixType.TINK ∧
        XCHACHA20_POLY1305.type_url ∈ typeUrls)) := by
  have hctr : ∀ a i hk t h tpl,
      create_aes_ctr_hmac_aead_key_template a i hk t h = .ok tpl →
      tpl.output_prefix_type = OutputPrefixType.TINK ∧
      tpl.type_url = _AES_CTR_HMAC_AEAD_KEY_TYPE_URL := by
    intro a i hk t h tpl hok
    obtain ⟨-, hurl, hpre⟩ := create_ctr_ok a i hk t h tpl hok
    exact ⟨hpre, hurl⟩
  refine ⟨fun k i => ⟨rfl, rfl⟩, fun k => ⟨rfl, rfl⟩, fun k => ⟨rfl, rfl⟩, hctr,
    ⟨rfl, by decide⟩, ⟨rfl, by decide⟩, ⟨rfl, by decide⟩, ⟨rfl, by decide⟩,
    ⟨rfl, by decide⟩, ⟨rfl, by decide⟩, ?_, ?_, ⟨rfl, by decide⟩⟩
  · intro tpl hok
    obtain ⟨hpre, hurl⟩ := hctr 16 16 32 16 SHA256 tpl hok
    exact ⟨hpre, by rw [hurl]; decide⟩
  · intro tpl hok
    obtain ⟨hpre, hurl⟩ := hctr 32 16 32 32 SHA256 tpl hok
    exact ⟨hpre, by rw [hurl]; decide⟩

/-- Witness for C1 at concrete inputs: the EAX constructor at the catalog's
sizes, and the successful 128-bit CTR-HMAC catalog call. -/
theorem claim1_witness :
    ((create_aes_eax_key_template 16 16).output_prefix_type = OutputPrefixType.TINK ∧
      (create_aes_eax_key_template 16 16).type_url = _AES_EAX_KEY_TYPE_URL) ∧
    (⟨_AES_CTR_HMAC_AEAD_KEY_TYPE_URL, ctrHmacValueBytes 16 16 32 16 SHA256,
        OutputPrefixType.TINK⟩ : KeyTemplate).output_prefix_type =
      OutputPrefixType.TINK :=
  ⟨claim1_templates_tink_and_fixed_identifiers.1 16 16,
   (claim1_templates_tink_and_fixed_identifiers.2.2.2.1 16 16 32 16 SHA256
      ⟨_AES_CTR_HMAC_AEAD_KEY_TYPE_URL, ctrHmacValueBytes 16 16 32 16 SHA256,
        OutputPrefixType.TINK⟩
      (create_ctr_ok_of_domain 16 16 32 16 SHA256 rfl)).1⟩

/-- C2: the catalog entry AES128_CTR_HMAC_SHA256 is the template created from
aes_key_size 16, iv_size 16, hmac_key_size 32, tag_size 16 and SHA256, i.e.
the CTR-HMAC record with these sizes serialized and assembled with the
AesCtrHmacAeadKey identifier and TINK tagging mode (the explicit bytes are
also given). -/
theorem claim2_aes128_ctr_hmac_sha256_definition :
    AES128_CTR_HMAC_SHA256 = create_aes_ctr_hmac_aead_key_template 16 16 32 16 SHA256 ∧
    AES128_CTR_HMAC_SHA256 =
      .ok ⟨_AES_CTR_HMAC_AEAD_KEY_TYPE_URL,
        [10, 6, 10, 2, 8, 16, 16, 16, 18, 8, 10, 4, 8, 3, 16, 16, 16, 32],
        OutputPrefixType.TINK⟩ :=
  ⟨rfl, rfl⟩

/-- C3: the catalog entry AES128_EAX is the template created from key_size 16
and iv_size 16 with the AesEaxKey identifier and TINK mode, and AES256_GCM is
the template created from key_size 32 with the AesGcmKey identifier and TINK
mode (the explicit bytes are also given). -/
theorem claim3_aes128_eax_and_aes256_gcm_definitions :
    AES128_EAX = create_aes_eax_key_template 16 16 ∧
    AES128_EAX = ⟨_AES_EAX_KEY_TYPE_URL, [10, 2, 8, 16, 16, 16], OutputPrefixType.TINK⟩ ∧
    AES256_GCM = create_aes_gcm_key_template 32 ∧
    AES256_GCM = ⟨_AES_GCM_KEY_TYPE_URL, [16, 32], OutputPrefixType.TINK⟩ :=
  ⟨rfl, rfl, rfl, rfl⟩

/-- C4: the XChaCha20-Poly1305 catalog entry has an empty serialized-parameters
field, the XChaCha20Poly1305Key identifier, and TINK tagging mode. -/
theorem claim4_xchacha20_poly1305_entry :
    XCHACHA20_POLY1305.value = [] ∧
    XCHACHA20_POLY1305.type_url = _XCHACHA20_POLY1305_KEY_TYPE_URL ∧
    XCHACHA20_POLY1305.output_prefix_type = OutputPrefixType.TINK :=
  ⟨rfl, rfl, rfl⟩

/-- C5: encoding is deterministic — two calls of the same create function with
equal arguments return equal templates (hence byte-identical value fields). -/
theorem claim5_encoding_deterministic :
    (∀ k₁ i₁ k₂ i₂ : Nat, k₁ = k₂ → i₁ = i₂ →
      create_aes_eax_key_template k₁ i₁ = create_aes_eax_key_template k₂ i₂) ∧
    (∀ k₁ k₂ : Nat, k₁ = k₂ →
      create_aes_gcm_key_template k₁ = create_aes_gcm_key_template k₂) ∧
    (∀ k₁ k₂ : Nat, k₁ = k₂ →
      create_aes_gcm_siv_key_template k₁ = create_aes_gcm_siv_key_template k₂) ∧
    (∀ a₁ i₁ hk₁ t₁ h₁ a₂ i₂ hk₂ t₂ h₂ : Nat,
      a₁ = a₂ → i₁ = i₂ → hk₁ = hk₂ → t₁ = t₂ → h₁ = h₂ →
      create_aes_ctr_hmac_aead_key_template a₁ i₁ hk₁ t₁ h₁ =
        create_aes_ctr_hmac_aead_key_template a₂ i₂ hk₂ t₂ h₂) := by
  refine ⟨?_, ?_, ?_, ?_⟩ <;> intros <;> subst_vars <;> rfl

/-- Witness for C5 at the 128-bit catalog parameters. -/
theorem claim5_witness :
    create_aes_eax_key_template 16 16 = create_aes_eax_key_template 16 16 ∧
    create_aes_ctr_hmac_aead_key_template 16 16 32 16 SHA256 =
      create_aes_ctr_hmac_aead_key_template 16 16 32 16 SHA256 :=
  ⟨claim5_encoding_deterministic.1 16 16 16 16 rfl rfl,
   claim5_encoding_deterministic.2.2.2 16 16 32 16 SHA256 16 16 32 16 SHA256
     rfl rfl rfl rfl rfl⟩

/-- C6: encoding is injective per variant — equal serialized-parameter bytes
force equal argument tuples, so distinct inputs yield distinct bytes. -/
theorem claim6_encoders_injective :
    (∀ k₁ i₁ k₂ i₂ : Nat,
      (create_aes_eax_key_template k₁ i₁).value =
        (create_aes_eax_key_template k₂ i₂).value → k₁ = k₂ ∧ i₁ = i₂) ∧
    (∀ k₁ k₂ : Nat,
      (create_aes_gcm_key_template k₁).value =
        (create_aes_gcm_key_template k₂).value → k₁ = k₂) ∧
    (∀ k₁ k₂ : Nat,
      (create_aes_gcm_siv_key_template k₁).value =
        (create_aes_gcm_siv_key_template k₂).value → k₁ = k₂) ∧
    (∀ a₁ i₁ hk₁ t₁ h₁ a₂ i₂ hk₂ t₂ h₂ : Nat, ∀ tpl₁ tpl₂ : KeyTemplate,
      create_aes_ctr_hmac_aead_key_template a₁ i₁ hk₁ t₁ h₁ = .ok tpl₁ →
      create_aes_ctr_hmac_aead_key_template a₂ i₂ hk₂ t₂ h₂ = .ok tpl₂ →
      tpl₁.value = tpl₂.value →
      a₁ = a₂ ∧ i₁ = i₂ ∧ hk₁ = hk₂ ∧ t₁ = t₂ ∧ h₁ = h₂) := by
  refine ⟨?_, ?_, ?_, ?_⟩
  · intro k₁ i₁ k₂ i₂ hval
    have hp : AesEaxKeyFormat.ParseFromString
          (AesEaxKeyFormat.SerializeToString ⟨⟨i₁⟩, k₁⟩) =
        AesEaxKeyFormat.ParseFromString
          (AesEaxKeyFormat.SerializeToString ⟨⟨i₂⟩, k₂⟩) :=
      congrArg AesEaxKeyFormat.ParseFromString hval
    rw [aesEax_parse_serialize, aesEax_parse_serialize] at hp
    simp only [AesEaxKeyFormat.mk.injEq, AesEaxParams.mk.injEq] at hp
    exact ⟨hp.2, hp.1⟩
  · intro k₁ k₂ hval
    have hp : AesGcmKeyFormat.ParseFromString
          (AesGcmKeyFormat.SerializeToString ⟨k₁⟩) =
        AesGcmKeyFormat.ParseFromString (AesGcmKeyFormat.SerializeToString ⟨k₂⟩) :=
      congrArg AesGcmKeyFormat.ParseFromString hval
    rw [aesGcm_parse_serialize, aesGcm_parse_serialize] at hp
    simpa using hp
  · intro k₁ k₂ hval
    have hp : AesGcmSivKeyFormat.ParseFromString
          (AesGcmSivKeyFormat.SerializeToString ⟨k₁⟩) =
        AesGcmSivKeyFormat.ParseFromString
          (AesGcmSivKeyFormat.SerializeToString ⟨k₂⟩) :=
      congrArg AesGcmSivKeyFormat.ParseFromString hval
    rw [aesGcmSiv_parse_serialize, aesGcmSiv_parse_serialize] at hp
    simpa using hp
  · intro a₁ i₁ hk₁ t₁ h₁ a₂ i₂ hk₂ t₂ h₂ tpl₁ tpl₂ hok₁ hok₂ hval
    obtain ⟨hs₁, -, -⟩ := create_ctr_ok a₁ i₁ hk₁ t₁ h₁ tpl₁ hok₁
    obtain ⟨hs₂, -, -⟩ := create_ctr_ok a₂ i₂ hk₂ t₂ h₂ tpl₂ hok₂
    have hp₁ := aesCtrHmacAead_parse_serialize _ _ hs₁
    have hp₂ := aesCtrHmacAead_parse_serialize _ _ hs₂
    rw [hval] at hp₁
    rw [hp₂] at hp₁
    simp only [AesCtrHmacAeadKeyFormat.mk.injEq, AesCtrKeyFormat.mk.injEq,
      AesCtrParams.mk.injEq, HmacKeyFormat.mk.injEq, HmacParams.mk.injEq] at hp₁
    exact ⟨hp₁.1.2.symm, hp₁.1.1.symm, hp₁.2.2.symm, hp₁.2.1.2.symm, hp₁.2.1.1.symm⟩

/-- Witness for C6 at concrete inputs, both for the EAX variant and for the
CTR-HMAC variant through the successful catalog call. -/
theorem claim6_witness :
    (16 = 16 ∧ 16 = 16) ∧ (16 = 16 ∧ 16 = 16 ∧ 32 = 32 ∧ 16 = 16 ∧ SHA256 = SHA256) :=
  ⟨claim6_encoders_injective.1 16 16 16 16 rfl,
   claim6_encoders_injective.2.2.2 16 16 32 16 SHA256 16 16 32 16 SHA256
     ⟨_AES_CTR_HMAC_AEAD_KEY_TYPE_URL, ctrHmacValueBytes 16 16 32 16 SHA256,
       OutputPrefixType.TINK⟩
     ⟨_AES_CTR_HMAC_AEAD_KEY_TYPE_URL, ctrHmacValueBytes 16 16 32 16 SHA256,
       OutputPrefixType.TINK⟩
     (create_ctr_ok_of_domain 16 16 32 16 SHA256 rfl)
     (create_ctr_ok_of_domain 16 16 32 16 SHA256 rfl) rfl⟩

/-- C7: round-trip — for every template this module produces, parsing its
serialized parameters into the record shape of its type identifier and
re-serializing yields exactly the original bytes. -/
theorem claim7_roundtrip :
    (∀ k i, (AesEaxKeyFormat.ParseFromString
        (create_aes_eax_key_template k i).value).SerializeToString =
      (create_aes_eax_key_template k i).value) ∧
    (∀ k, (AesGcmKeyFormat.ParseFromString
        (create_aes_gcm_key_template k).value).SerializeToString =
      (create_aes_gcm_key_template k).value) ∧
    (∀ k, (AesGcmSivKeyFormat.ParseFromString
        (create_aes_gcm_siv_key_template k).value).SerializeToString =
      (create_aes_gcm_siv_key_template k).value) ∧
    (∀ a i hk t h tpl, create_aes_ctr_hmac_aead_key_template a i hk t h = .ok tpl →
      (AesCtrHmacAeadKeyFormat.ParseFromString tpl.value).SerializeToString =
        .ok tpl.value) := by
  refine ⟨?_, ?_, ?_, ?_⟩
  · intro k i
    show (AesEaxKeyFormat.ParseFromString
        (AesEaxKeyFormat.SerializeToString ⟨⟨i⟩, k⟩)).SerializeToString = _
    rw [aesEax_parse_serialize]
    rfl
  · intro k
    show (AesGcmKeyFormat.ParseFromString
        (AesGcmKeyFormat.SerializeToString ⟨k⟩)).SerializeToString = _
    rw [aesGcm_parse_serialize]
    rfl
  · intro k
    show (AesGcmSivKeyFormat.ParseFromString
        (AesGcmSivKeyFormat.SerializeToString ⟨k⟩)).SerializeToString = _
    rw [aesGcmSiv_parse_serialize]
    rfl
  · intro a i hk t h tpl hok
    obtain ⟨hs, -, -⟩ := create_ctr_ok a i hk t h tpl hok
    rw [aesCtrHmacAead_parse_serialize _ _ hs]
    exact hs

/-- Witness for C7 at concrete inputs, including a zero-length key and the
successful 128-bit CTR-HMAC catalog call. -/
theorem claim7_witness :
    (AesEaxKeyFormat.ParseFromString
        (create_aes_eax_key_template 0 0).value).SerializeToString =
      (create_aes_eax_key_template 0 0).value ∧
    (AesCtrHmacAeadKeyFormat.ParseFromString
        (⟨_AES_CTR_HMAC_AEAD_KEY_TYPE_URL, ctrHmacValueBytes 16 16 32 16 SHA256,
          OutputPrefixType.TINK⟩ : KeyTemplate).value).SerializeToString =
      .ok (⟨_AES_CTR_HMAC_AEAD_KEY_TYPE_URL, ctrHmacValueBytes 16 16 32 16 SHA256,
          OutputPrefixType.TINK⟩ : KeyTemplate).value :=
  ⟨claim7_roundtrip.1 0 0,
   claim7_roundtrip.2.2.2 16 16 32 16 SHA256
     ⟨_AES_CTR_HMAC_AEAD_KEY_TYPE_URL, ctrHmacValueBytes 16 16 32 16 SHA256,
       OutputPrefixType.TINK⟩
     (create_ctr_ok_of_domain 16 16 32 16 SHA256 rfl)⟩

/-- C8: calling the CTR-HMAC encoder with a hash value outside the supported
enum domain fails with exactly the enum-out-of-domain EncodingError; no
template is produced and the error propagates unchanged. -/
theorem claim8_ctr_hmac_enum_out_of_domain (a i hk t h : Nat)
    (hdom : hashTypeDomain h = false) :
    create_aes_ctr_hmac_aead_key_template a i hk t h =
      .error (.enumOutOfDomain h) :=
  create_ctr_error_of_domain a i hk t h hdom

/-- Witness for C8 at the out-of-domain hash value 6. -/
theorem claim8_witness :
    hashTypeDomain 6 = false ∧
    create_aes_ctr_hmac_aead_key_template 16 16 32 16 6 =
      .error (.enumOutOfDomain 6) :=
  ⟨rfl, claim8_ctr_hmac_enum_out_of_domain 16 16 32 16 6 rfl⟩

/-- C9: no bounds checking — every integer size argument, including zero, is
accepted and serialized as-is into the template's value, and only a hash enum
value outside its declared domain can make an encoder fail. -/
theorem claim9_no_bounds_checking :
    (∀ k i, (create_aes_eax_key_template k i).value =
      encLenField 1 (encVarintField 1 i) ++ encVarintField 2 k) ∧
    (∀ k, (create_aes_gcm_key_template k).value = encVarintField 2 k) ∧
    (∀ k, (create_aes_gcm_siv_key_template k).value = encVarintField 2 k) ∧
    (∀ a i hk t h, hashTypeDomain h = true →
      create_aes_ctr_hmac_aead_key_template a i hk t h =
        .ok ⟨_AES_CTR_HMAC_AEAD_KEY_TYPE_URL, ctrHmacValueBytes a i hk t h,
          OutputPrefixType.TINK⟩) ∧
    (∀ a i hk t h e, create_aes_ctr_hmac_aead_key_template a i hk t h = .error e →
      hashTypeDomain h = false ∧ e = .enumOutOfDomain h) := by
  refine ⟨fun k i => rfl, fun k => rfl, fun k => rfl, create_ctr_ok_of_domain, ?_⟩
  intro a i hk t h e herr
  cases hdom : hashTypeDomain h with
  | true =>
    rw [create_ctr_ok_of_domain a i hk t h hdom] at herr
    cases herr
  | false =>
    rw [create_ctr_error_of_domain a i hk t h hdom] at herr
    exact ⟨rfl, (Except.error.inj herr).symm⟩

/-- Witness for C9 at a zero-length key and at an in-domain CTR-HMAC call. -/
theorem claim9_witness :
    (create_aes_eax_key_template 0 0).value =
      encLenField 1 (encVarintField 1 0) ++ encVarintField 2 0 ∧
    create_aes_ctr_hmac_aead_key_template 0 0 0 0 SHA256 =
      .ok ⟨_AES_CTR_HMAC_AEAD_KEY_TYPE_URL, ctrHmacValueBytes 0 0 0 0 SHA256,
        OutputPrefixType.TINK⟩ :=
  ⟨claim9_no_bounds_checking.1 0 0,
   claim9_no_bounds_checking.2.2.2.1 0 0 0 0 SHA256 rfl⟩

/-- C10: the nine catalog constants are exactly the documented calls with
fixed parameters; in particular the 256-bit CTR-HMAC entry uses tag_size 32,
which yields different serialized bytes from tag_size 16. -/
theorem claim10_catalog_constants :
    AES128_EAX = create_aes_eax_key_template 16 16 ∧
    AES256_EAX = create_aes_eax_key_template 32 16 ∧
    AES128_GCM = create_aes_gcm_key_template 16 ∧
    AES256_GCM = create_aes_gcm_key_template 32 ∧
    AES128_GCM_SIV = create_aes_gcm_siv_key_template 16 ∧
    AES256_GCM_SIV = create_aes_gcm_siv_key_template 32 ∧
    AES128_CTR_HMAC_SHA256 = create_aes_ctr_hmac_aead_key_template 16 16 32 16 SHA256 ∧
    AES256_CTR_HMAC_SHA256 = create_aes_ctr_hmac_aead_key_template 32 16 32 32 SHA256 ∧
    XCHACHA20_POLY1305 =
      ⟨_XCHACHA20_POLY1305_KEY_TYPE_URL, [], OutputPrefixType.TINK⟩ ∧
    AES256_CTR_HMAC_SHA256 ≠ create_aes_ctr_hmac_aead_key_template 32 16 32 16 SHA256 :=
  ⟨rfl, rfl, rfl, rfl, rfl, rfl, rfl, rfl, rfl, by decide⟩

end AeadKeyTemplates
